import Mathlib

/-!
Verification of the voicebot repository's specification.

The repository's Streamlit variant (`app.py`) is embedded directly below
(`call_openai_chat`, the Send-to-bot button handler).  The audio
capture/export pipeline (`AudioFrameSink`, `AudioBufferAssembler`,
`RecordingSessionController`) belongs to the WebRTC-based variant of the
repository, whose source file is not present; those components are
modelled from the specification text, as marked in their doc comments.
-/

namespace Voicebot

/-- Modelled from the spec: an `AudioFrame` is "a short slice of audio
samples with a channel count and sample rate; immutable once received".
Each element of `samples` is one sampling instant, holding one value per
channel; sample values are floating point in `[-1, 1]`, modelled here as
rationals. -/
structure AudioFrame where
  channelCount : Nat
  samples : List (List ℚ)
  deriving Repr, DecidableEq

/-- Modelled from the spec: downmix of one sampling instant.  "if any
frame has more than one channel, downmixes by averaging channel values
into a single channel"; a mono sample is kept as is. -/
def downmixSample (channelCount : Nat) (s : List ℚ) : ℚ :=
  if channelCount ≤ 1 then s.headD 0
  else s.sum / (s.length : ℚ)

/-- Modelled from the spec: downmix a whole frame to a single channel. -/
def downmixFrame (f : AudioFrame) : List ℚ :=
  f.samples.map (downmixSample f.channelCount)

/-- Modelled from the spec: a `FrameBuffer` is "an ordered sequence of
AudioFrame, insertion order = arrival order = playback order". -/
abbrev FrameBuffer := List AudioFrame

/-- Modelled from the spec: `AudioFrameSink.receive(frame)` "appends
frame to the active buffer"; the buffer length increases by one. -/
def receiveFrame (buffer : FrameBuffer) (f : AudioFrame) : FrameBuffer :=
  buffer ++ [f]

/-- Append a whole arrival-ordered sequence of frames through the sink. -/
def receiveAllFrames (buffer : FrameBuffer) (fs : List AudioFrame) : FrameBuffer :=
  fs.foldl receiveFrame buffer

/-- Modelled from the spec: "concatenates all frames in arrival order
into one sample sequence", each frame downmixed to mono. -/
def assembleSamples (buffer : FrameBuffer) : List ℚ :=
  (buffer.map downmixFrame).flatten

/-- Modelled from the spec: an `ExportedRecording` is "a file path plus
metadata (sample rate, duration derivable from sample count)"; the path
is abstracted, the written mono sample sequence is kept. -/
structure ExportedRecording where
  samples : List ℚ
  sampleRate : Nat
  deriving Repr, DecidableEq

/-- Modelled from the spec's error taxonomy for
`AudioBufferAssembler.export`: the benign empty result, an `IoFailure`,
or a successful recording. -/
inductive ExportOutcome where
  | empty
  | ioFailure
  | ok (rec : ExportedRecording)
  deriving Repr, DecidableEq

/-- The sample sequence an export outcome delivered (empty when no
recording was produced). -/
def exportedSamples : ExportOutcome → List ℚ
  | .ok rec => rec.samples
  | _ => []

/-- Result of one `export()` call: the outcome, the buffer as the call
leaves it, and whether a file was created on durable storage. -/
structure ExportEffect where
  outcome : ExportOutcome
  buffer : FrameBuffer
  fileCreated : Bool
  deriving Repr, DecidableEq

/-- Modelled from the spec: `AudioBufferAssembler.export()`.  "If the
buffer is empty, returns nothing — an empty-result condition.
Otherwise concatenates all frames in arrival order, downmixes, writes
the mono sequence to a file, clears the buffer as a single atomic step
after the write succeeds; a failed write leaves the buffer intact for
retry and surfaces as an I/O error."  `writeSucceeds` models whether
the file write succeeds. -/
def exportBuffer (buffer : FrameBuffer) (sampleRate : Nat) (writeSucceeds : Bool) :
    ExportEffect :=
  if buffer.isEmpty then
    { outcome := .empty, buffer := buffer, fileCreated := false }
  else if writeSucceeds then
    { outcome := .ok { samples := assembleSamples buffer, sampleRate := sampleRate },
      buffer := [], fileCreated := true }
  else
    { outcome := .ioFailure, buffer := buffer, fileCreated := false }

/-- Modelled from the spec: the controller's states, `Idle` and
`Recording` ("No Paused state"). -/
inductive SessionState where
  | Idle
  | Recording
  deriving Repr, DecidableEq

/-- Modelled from the spec: `InvalidState` — "operation invoked in a
state that forbids it". -/
inductive CtrlError where
  | InvalidState
  deriving Repr, DecidableEq

/-- Modelled from the spec: a `RecordingSessionController` "owns the
lifecycle of one recording session"; it has exactly one frame buffer and
the sample-rate value declared at construction. -/
structure RecordingSessionController where
  state : SessionState
  buffer : FrameBuffer
  sampleRate : Nat
  deriving Repr, DecidableEq

/-- Modelled from the spec: `start()` is "valid only from Idle;
transitions to Recording; fails with an InvalidState condition if
already Recording". -/
def start (c : RecordingSessionController) :
    Except CtrlError RecordingSessionController :=
  match c.state with
  | .Recording => .error .InvalidState
  | .Idle => .ok { c with state := .Recording }

/-- Modelled from the spec: `stop()` is "valid only from Recording;
transitions to Idle; detaches from the capture transport so no further
frames are accepted". -/
def stop (c : RecordingSessionController) :
    Except CtrlError RecordingSessionController :=
  match c.state with
  | .Idle => .error .InvalidState
  | .Recording => .ok { c with state := .Idle }

/-- Modelled from the spec: frames are accepted via the sink only while
the session is `Recording`. -/
def ctrlReceive (c : RecordingSessionController) (f : AudioFrame) :
    RecordingSessionController :=
  match c.state with
  | .Recording => { c with buffer := receiveFrame c.buffer f }
  | .Idle => c

/-- Modelled from the spec: export "may be invoked only while Idle;
invoking it while Recording is invalid and fails with an InvalidState
condition", leaving the controller untouched; from Idle it runs
`AudioBufferAssembler.export` on the session's buffer. -/
def ctrlExport (c : RecordingSessionController) (writeSucceeds : Bool) :
    Except CtrlError ExportEffect × RecordingSessionController :=
  match c.state with
  | .Recording => (.error .InvalidState, c)
  | .Idle =>
      let e := exportBuffer c.buffer c.sampleRate writeSucceeds
      (.ok e, { c with buffer := e.buffer })

/-- Modelled from the spec's concurrency section: append (producer) and
drain-and-clear (consumer) are mutually exclusive at the granularity of
one full append vs one full drain, so when the producer delivers one
more frame while the consumer drains, the only observable interleavings
are append-before-drain and drain-before-append.  Returns the export
outcome together with the buffer both operations leave behind. -/
def appendDuringDrain (producerFirst : Bool) (buffer : FrameBuffer)
    (f : AudioFrame) (sampleRate : Nat) : ExportOutcome × FrameBuffer :=
  if producerFirst then
    let e := exportBuffer (receiveFrame buffer f) sampleRate true
    (e.outcome, e.buffer)
  else
    let e := exportBuffer buffer sampleRate true
    (e.outcome, receiveFrame e.buffer f)

/-! ### Embedding of `app.py` (the Streamlit variant present in the source) -/

/-- `app.py` resolves `OPENAI_API_KEY`: first from Streamlit secrets
(membership test `"OPENAI_API_KEY" in st.secrets`), else from the
environment guarded by Python truthiness (`elif os.getenv(...)`), else
it stays `None`. -/
def resolveApiKey (secrets env : Option String) : Option String :=
  match secrets with
  | some v => some v
  | none =>
      match env with
      | some v => if v = "" then none else some v
      | none => none

/-- Python truthiness of `not OPENAI_API_KEY`: true when the key is
`None` or the empty string. -/
def keyNotConfigured : Option String → Bool
  | none => true
  | some s => s = ""

/-- The shape `call_openai_chat` reads from a 200 response body:
`data["choices"][0]["message"]["content"]`.  Each choice is reduced to
its message content string. -/
structure ChatCompletionBody where
  choices : List String
  deriving Repr, DecidableEq

/-- An HTTP response as `call_openai_chat` consumes it: `status_code`,
raw `text`, and `body`, the parse of the text as a chat completion
(`none` when `resp.json()` or the key/index accesses would raise). -/
structure HttpResponse where
  status_code : Nat
  text : String
  body : Option ChatCompletionBody
  deriving Repr, DecidableEq

/-- Outcome of `requests.post(...)`: either a response, or an exception
raised by the request itself (timeout, connection error). -/
inductive PostResult where
  | response (r : HttpResponse)
  | raised
  deriving Repr, DecidableEq

/-- Result of running a Python function: a returned value, or a
propagating exception. -/
inductive PyResult (α : Type) where
  | ret (a : α)
  | exn
  deriving Repr, DecidableEq

/-- Embedding of `call_openai_chat(user_text, persona_text, model_name)`
from `app.py`.  `OPENAI_API_KEY` is the module-level resolved key and
`post` the outcome `requests.post` would produce; the second component
records whether an HTTP request was performed. -/
def call_openai_chat (OPENAI_API_KEY : Option String) (post : PostResult)
    (user_text persona_text model_name : String) : PyResult String × Bool :=
  if keyNotConfigured OPENAI_API_KEY then
    (.ret "Error: OPENAI_API_KEY not configured on the server.", false)
  else
    match post with
    | .raised => (.exn, true)
    | .response resp =>
        if resp.status_code ≠ 200 then
          (.ret ("OpenAI API error " ++ toString resp.status_code ++ ": " ++ resp.text),
           true)
        else
          match resp.body with
          | none => (.exn, true)
          | some b =>
              match b.choices with
              | [] => (.exn, true)
              | content :: _ => (.ret content, true)

/-- Python's `str.strip()` with no argument: remove whitespace from both
ends of the string (embedded over the string's character list). -/
def pyStrip (s : String) : String :=
  ⟨((s.data.dropWhile Char.isWhitespace).reverse.dropWhile
      Char.isWhitespace).reverse⟩

/-- One entry of `st.session_state.history`: a dict with `role` and
`text` keys. -/
structure HistEntry where
  role : String
  text : String
  deriving Repr, DecidableEq

/-- Embedding of the `Send to bot` button handler in `app.py`: strip the
typed input; if empty, warn and leave the history alone; otherwise
append the user entry, call `call_openai_chat`, then append the bot
entry.  If the chat call raises, the script aborts after the user entry
was already appended (session state persists across the abort).  The
second component records whether an HTTP request was performed. -/
def sendToBot (history : List HistEntry) (typed_input : String)
    (OPENAI_API_KEY : Option String) (post : PostResult)
    (persona model : String) : List HistEntry × Bool :=
  let question := pyStrip typed_input
  if question = "" then (history, false)
  else
    let h1 := history ++ [{ role := "user", text := question }]
    match call_openai_chat OPENAI_API_KEY post question persona model with
    | (.ret reply, made) => (h1 ++ [{ role := "bot", text := reply }], made)
    | (.exn, made) => (h1, made)

/-! ### Helper lemmas -/

/-- Appending a sequence of frames through the sink appends it, in
arrival order, to the buffer. -/
theorem receiveAllFrames_eq_append (buffer : FrameBuffer)
    (fs : List AudioFrame) : receiveAllFrames buffer fs = buffer ++ fs := by
  induction fs generalizing buffer with
  | nil => simp [receiveAllFrames]
  | cons f fs ih =>
      have h := ih (receiveFrame buffer f)
      simp only [receiveAllFrames, List.foldl_cons] at *
      rw [h, receiveFrame, List.append_assoc, List.singleton_append]

/-- Assembly distributes over buffer concatenation. -/
theorem assembleSamples_append (b₁ b₂ : FrameBuffer) :
    assembleSamples (b₁ ++ b₂) = assembleSamples b₁ ++ assembleSamples b₂ := by
  simp [assembleSamples]

/-! ### Claims -/

/-- C1: for every sequence of N frames appended to the buffer and then
exported, the export succeeds with exactly the per-frame mono-downmixed
sample sequences concatenated in arrival order, so the exported sample
count is the sum of each frame's downmixed sample count. -/
theorem export_concatenates_in_arrival_order (fs : List AudioFrame)
    (rate : Nat) (hne : fs ≠ []) :
    (exportBuffer (receiveAllFrames [] fs) rate true).outcome =
      .ok { samples := (fs.map downmixFrame).flatten, sampleRate := rate } ∧
    ((fs.map downmixFrame).flatten).length =
      (fs.map fun f => (downmixFrame f).length).sum := by
  constructor
  · rw [receiveAllFrames_eq_append, List.nil_append]
    simp [exportBuffer, hne, assembleSamples]
  · rw [List.length_flatten, List.map_map]
    rfl

/-- C1 witness: two concrete mono frames export to their concatenation,
with sample count 3 = 2 + 1. -/
theorem export_concatenates_in_arrival_order_witness :
    ([⟨1, [[1], [2]]⟩, ⟨1, [[3]]⟩] : List AudioFrame) ≠ [] ∧
    ((exportBuffer
        (receiveAllFrames [] [⟨1, [[1], [2]]⟩, ⟨1, [[3]]⟩]) 8000 true).outcome =
      .ok { samples := (([⟨1, [[1], [2]]⟩, ⟨1, [[3]]⟩] : List AudioFrame).map
              downmixFrame).flatten,
            sampleRate := 8000 } ∧
    ((([⟨1, [[1], [2]]⟩, ⟨1, [[3]]⟩] : List AudioFrame).map
        downmixFrame).flatten).length =
      (([⟨1, [[1], [2]]⟩, ⟨1, [[3]]⟩] : List AudioFrame).map
          fun f => (downmixFrame f).length).sum) :=
  ⟨by simp,
   export_concatenates_in_arrival_order [⟨1, [[1], [2]]⟩, ⟨1, [[3]]⟩] 8000
     (by simp)⟩

/-- C2: exporting a frame with more than one channel downmixes it to a
single channel by taking the per-sample mean of the channel values. -/
theorem export_downmixes_by_mean (f : AudioFrame) (rate : Nat)
    (hch : 1 < f.channelCount) :
    (exportBuffer [f] rate true).outcome =
      .ok { samples := f.samples.map (fun s => s.sum / (s.length : ℚ)),
            sampleRate := rate } := by
  have hnot : ¬ f.channelCount ≤ 1 := Nat.not_le.mpr hch
  simp [exportBuffer, assembleSamples, downmixFrame, downmixSample, hnot]

/-- C2 witness: a stereo frame with channel values `[1, -1]` downmixes
to the mono sample `0`. -/
theorem export_downmixes_by_mean_witness :
    1 < (AudioFrame.mk 2 [[1, -1]]).channelCount ∧
    (exportBuffer [AudioFrame.mk 2 [[1, -1]]] 16000 true).outcome =
      .ok { samples := [(0 : ℚ)], sampleRate := 16000 } := by
  refine ⟨by norm_num, ?_⟩
  have h := export_downmixes_by_mean (AudioFrame.mk 2 [[1, -1]]) 16000
    (by norm_num)
  rw [h]
  norm_num

/-- C3: exporting an empty buffer yields the empty-result signal, never
an I/O error; no file is created and the buffer stays empty. -/
theorem export_empty_buffer_is_benign (rate : Nat) (writeSucceeds : Bool) :
    exportBuffer [] rate writeSucceeds =
      { outcome := .empty, buffer := [], fileCreated := false } := rfl

/-- C4: when the file write fails, export surfaces an I/O error, creates
no file and leaves the buffer unchanged, so retrying with a succeeding
write exports the same audio. -/
theorem export_write_failure_preserves_buffer (buffer : FrameBuffer)
    (rate : Nat) (hne : buffer ≠ []) :
    exportBuffer buffer rate false =
      { outcome := .ioFailure, buffer := buffer, fileCreated := false } ∧
    (exportBuffer buffer rate true).outcome =
      .ok { samples := assembleSamples buffer, sampleRate := rate } := by
  constructor <;> simp [exportBuffer, hne]

/-- C4 witness at a concrete one-frame buffer. -/
theorem export_write_failure_preserves_buffer_witness :
    ([⟨1, [[1]]⟩] : FrameBuffer) ≠ [] ∧
    (exportBuffer [⟨1, [[1]]⟩] 8000 false =
      { outcome := .ioFailure, buffer := [⟨1, [[1]]⟩], fileCreated := false } ∧
    (exportBuffer [⟨1, [[1]]⟩] 8000 true).outcome =
      .ok { samples := assembleSamples [⟨1, [[1]]⟩], sampleRate := 8000 }) :=
  ⟨by simp, export_write_failure_preserves_buffer [⟨1, [[1]]⟩] 8000 (by simp)⟩

/-- C5: a successful export clears the buffer, so a second export with
no intervening frames yields the empty-result signal. -/
theorem export_then_export_is_empty (buffer : FrameBuffer) (rate : Nat)
    (hne : buffer ≠ []) (w₂ : Bool) :
    (exportBuffer buffer rate true).outcome =
      .ok { samples := assembleSamples buffer, sampleRate := rate } ∧
    (exportBuffer buffer rate true).buffer = [] ∧
    exportBuffer (exportBuffer buffer rate true).buffer rate w₂ =
      { outcome := .empty, buffer := [], fileCreated := false } := by
  refine ⟨?_, ?_, ?_⟩ <;> simp [exportBuffer, hne]

/-- C5 witness at a concrete one-frame buffer. -/
theorem export_then_export_is_empty_witness :
    ([⟨1, [[1]]⟩] : FrameBuffer) ≠ [] ∧
    ((exportBuffer [⟨1, [[1]]⟩] 8000 true).outcome =
      .ok { samples := assembleSamples [⟨1, [[1]]⟩], sampleRate := 8000 } ∧
    (exportBuffer [⟨1, [[1]]⟩] 8000 true).buffer = [] ∧
    exportBuffer (exportBuffer [⟨1, [[1]]⟩] 8000 true).buffer 8000 true =
      { outcome := .empty, buffer := [], fileCreated := false }) :=
  ⟨by simp, export_then_export_is_empty [⟨1, [[1]]⟩] 8000 (by simp) true⟩

/-- C6: invoking export while the controller is `Recording` fails with
`InvalidState` and leaves the controller (hence the frame buffer)
unchanged; a successful export can only have been invoked from `Idle`. -/
theorem export_while_recording_invalid (c : RecordingSessionController)
    (w : Bool) :
    (c.state = .Recording → ctrlExport c w = (.error .InvalidState, c)) ∧
    (∀ e c₂, ctrlExport c w = (.ok e, c₂) → c.state = .Idle) := by
  constructor
  · intro hrec
    simp [ctrlExport, hrec]
  · intro e c₂ hok
    cases hstate : c.state with
    | Idle => rfl
    | Recording => simp [ctrlExport, hstate] at hok

/-- C6 witness: a concrete recording-state controller rejects export and
keeps its buffer. -/
theorem export_while_recording_invalid_witness :
    (RecordingSessionController.mk .Recording [⟨1, [[1]]⟩] 8000).state =
      .Recording ∧
    ctrlExport (RecordingSessionController.mk .Recording [⟨1, [[1]]⟩] 8000)
        true =
      (.error .InvalidState,
       RecordingSessionController.mk .Recording [⟨1, [[1]]⟩] 8000) :=
  ⟨rfl,
   (export_while_recording_invalid
      (RecordingSessionController.mk .Recording [⟨1, [[1]]⟩] 8000) true).1 rfl⟩

/-- C7: in either interleaving of one producer append with one consumer
drain, the samples delivered by the export followed by the samples still
assemblable from the remaining buffer equal the assembly of the original
buffer with the new frame appended: no frame is lost, duplicated, or
torn. -/
theorem append_during_drain_no_loss (producerFirst : Bool)
    (buffer : FrameBuffer) (f : AudioFrame) (rate : Nat) :
    exportedSamples (appendDuringDrain producerFirst buffer f rate).1 ++
        assembleSamples (appendDuringDrain producerFirst buffer f rate).2 =
      assembleSamples (receiveFrame buffer f) := by
  cases producerFirst with
  | true =>
      simp [appendDuringDrain, exportBuffer, receiveFrame, exportedSamples,
        assembleSamples]
  | false =>
      by_cases hb : buffer = []
      · subst hb
        simp [appendDuringDrain, exportBuffer, receiveFrame, exportedSamples]
      · simp [appendDuringDrain, exportBuffer, receiveFrame, hb,
          exportedSamples, assembleSamples]

/-- C8: when `OPENAI_API_KEY` resolves from neither Streamlit secrets
nor the environment, `call_openai_chat` returns the exact error string
and performs no HTTP request, whatever the network would have done. -/
theorem missing_key_short_circuits (post : PostResult)
    (user_text persona_text model_name : String) :
    call_openai_chat (resolveApiKey none none) post user_text persona_text
        model_name =
      (.ret "Error: OPENAI_API_KEY not configured on the server.", false) := rfl

/-- C9: with a configured key, a response whose status code is not 200
makes `call_openai_chat` return the formatted error string — no
exception is raised and the response body is never consulted. -/
theorem non_200_returns_error_string (key : Option String)
    (resp : HttpResponse) (user_text persona_text model_name : String)
    (hkey : keyNotConfigured key = false) (hstatus : resp.status_code ≠ 200) :
    call_openai_chat key (.response resp) user_text persona_text model_name =
      (.ret ("OpenAI API error " ++ toString resp.status_code ++ ": " ++
        resp.text), true) := by
  simp [call_openai_chat, hkey, hstatus]

/-- C9 witness: a 500 response with body `oops` (unparseable, `none`)
yields the literal error string. -/
theorem non_200_returns_error_string_witness :
    keyNotConfigured (some "k") = false ∧
    (HttpResponse.mk 500 "oops" none).status_code ≠ 200 ∧
    call_openai_chat (some "k") (.response (HttpResponse.mk 500 "oops" none))
        "q" "p" "m" =
      (.ret "OpenAI API error 500: oops", true) := by
  refine ⟨by decide, by decide, ?_⟩
  have h := non_200_returns_error_string (some "k")
    (HttpResponse.mk 500 "oops" none) "q" "p" "m" (by decide) (by decide)
  rw [h]
  decide

/-- C10 counterexample: with the key configured and `requests.post`
raising (timeout or connection error), a non-empty input grows the
history by exactly one entry (the user entry), not two — the script
aborts before the bot entry is appended. -/
theorem send_button_counterexample :
    pyStrip "hi" ≠ "" ∧
    (sendToBot [] "hi" (some "k") .raised "p" "m").1 =
      [{ role := "user", text := "hi" }] ∧
    (sendToBot [] "hi" (some "k") .raised "p" "m").1.length ≠ 2 := by decide

/-- C10 amended: if the typed input strips to empty, the history is
unchanged and no request is made; otherwise, when the chat call returns
a reply string the history grows by exactly the user entry then the bot
entry, and when the chat call raises only the user entry is appended. -/
theorem send_button_history_growth (history : List HistEntry)
    (typed : String) (key : Option String) (post : PostResult)
    (persona model : String) :
    (pyStrip typed = "" →
      sendToBot history typed key post persona model = (history, false)) ∧
    (pyStrip typed ≠ "" →
      ∀ reply made,
        call_openai_chat key post (pyStrip typed) persona model =
          (.ret reply, made) →
        (sendToBot history typed key post persona model).1 =
          history ++ [{ role := "user", text := pyStrip typed },
                      { role := "bot", text := reply }]) ∧
    (pyStrip typed ≠ "" →
      ∀ made,
        call_openai_chat key post (pyStrip typed) persona model =
          (.exn, made) →
        (sendToBot history typed key post persona model).1 =
          history ++ [{ role := "user", text := pyStrip typed }]) := by
  refine ⟨?_, ?_, ?_⟩
  · intro h
    simp [sendToBot, h]
  · intro h reply made hc
    simp [sendToBot, h, hc]
  · intro h made hc
    simp [sendToBot, h, hc]

/-- C10 amended witness: the three cases at concrete inputs — blank
input, a returned reply (here the missing-key error string), and a
raising request. -/
theorem send_button_history_growth_witness :
    (pyStrip " " = "" ∧
      sendToBot [] " " (some "k") .raised "p" "m" = ([], false)) ∧
    (pyStrip "hi" ≠ "" ∧
      (sendToBot [] "hi" none .raised "p" "m").1 =
        [{ role := "user", text := "hi" },
         { role := "bot",
           text := "Error: OPENAI_API_KEY not configured on the server." }]) ∧
    (pyStrip "hi" ≠ "" ∧
      (sendToBot [] "hi" (some "k") .raised "p" "m").1 =
        [{ role := "user", text := "hi" }]) := by
  refine ⟨⟨by decide, ?_⟩, ⟨by decide, ?_⟩, ⟨by decide, ?_⟩⟩
  · exact (send_button_history_growth [] " " (some "k") .raised "p" "m").1
      (by decide)
  · have h := (send_button_history_growth [] "hi" none .raised "p" "m").2.1
      (by decide) "Error: OPENAI_API_KEY not configured on the server." false
      (by decide)
    rw [h]
    decide
  · have h := (send_button_history_growth [] "hi" (some "k") .raised "p"
      "m").2.2 (by decide) true (by decide)
    rw [h]
    decide

end Voicebot
